import Mathlib

/-!
Verification development for the mangadlmao repository: shallow embeddings of
the chapter acquisition engine (mangadex.py, weebcentral.py, mangaplus.py),
the archive writer (cbz.py) and the utility helpers (utils.py), together with
theorems settling the specification claims about them.

Conventions:
- Python floats are modelled as rationals (`ℚ`), machine timestamps as `ℚ`.
- Python byte strings are `List ℕ` (each entry a byte value).
- Fallible Python code (exceptions) is modelled with `Option` / `Except`.
- Filesystem effects are modelled as explicit event traces or small state
  records, with the wall clock passed in explicitly where the code reads it.
-/

/-! ## utils.py -/

/-- Embedding of `utils.format_chapter_number`.  The Python code is
`if (i := number.find(".")) > 0: integer_portion = number[:i] else:
integer_portion = number; num = count - len(integer_portion);
return char * num + number`.  Note the guard is `i > 0`: a dot at index 0
(or no dot, `find` returning -1) makes the whole string the integer portion.
Python `char * num` with a negative `num` is the empty string, which matches
Nat truncated subtraction. Defaults in the source are `count = 3`,
`char = "0"`. -/
def format_chapter_number (number : List Char) (count : ℕ) (char : Char) : List Char :=
  let integer_portion :=
    match number.findIdx? (fun c => c = '.') with
    | some i => if 0 < i then number.take i else number
    | none => number
  let num := count - integer_portion.length
  List.replicate num char ++ number

/-- The integer portion of a chapter-number string as the SPEC words it
(claim C10): the part before the first dot, or the whole string when there
is no dot.  Kept separate from the source embedding so the two
can be compared; they differ exactly when the string starts with a dot. -/
def specIntegerPortion (number : List Char) : List Char :=
  match number.findIdx? (fun c => c = '.') with
  | some i => number.take i
  | none => number

/-- The integer portion exactly as the SOURCE computes it (guard `i > 0`). -/
def codeIntegerPortion (number : List Char) : List Char :=
  match number.findIdx? (fun c => c = '.') with
  | some i => if 0 < i then number.take i else number
  | none => number

/-! ## cbz.py -/

/-- One character of `xml.sax.saxutils.escape`: `&`, `<` and `>` are replaced
by their entities, everything else is kept.  The sequential `str.replace`
calls of the Python implementation are equivalent to this per-character map
because no replacement output contains a character that a later replace
rewrites. -/
def escChar (c : Char) : List Char :=
  if c = '&' then '&' :: 'a' :: 'm' :: 'p' :: [';']
  else if c = '<' then '&' :: 'l' :: 't' :: [';']
  else if c = '>' then '&' :: 'g' :: 't' :: [';']
  else [c]

/-- Embedding of `xml.sax.saxutils.escape` on a whole string. -/
def escape (s : List Char) : List Char :=
  s.flatMap escChar

/-- Capitalisation done by `generate_comic_info`: `key[0].upper() + key[1:]`.
(The source would raise on an empty key; keys in this repository are literal
non-empty strings, so the empty case is totalised to the empty string.) -/
def capitalizeKey (k : List Char) : List Char :=
  match k with
  | [] => []
  | c :: rest => c.toUpper :: rest

/-- Embedding of `cbz.generate_comic_info`.  The manifest dictionary is an
insertion-ordered association list; a value of `none` is Python `None`
(skipped by the `if value is not None` guard), a value `some v` is the string
`str(value)`. -/
def generate_comic_info (comic_info : List (List Char × Option (List Char))) : List Char :=
  let header := String.toList "<?xml version=\"1.0\" encoding=\"UTF-8\"?>\n<ComicInfo>\n"
  let body := comic_info.foldl
    (fun s kv =>
      match kv.2 with
      | none => s
      | some value =>
        let key := capitalizeKey kv.1
        s ++ ('\t' :: '<' :: key) ++ ('>' :: escape value) ++ ('<' :: '/' :: key) ++ ['>', '\n'])
    []
  header ++ body ++ String.toList "</ComicInfo>\n"

/-- How one manifest entry is rendered according to the spec's reading of
`generate_comic_info` (used to state the amended C8): `None` values are
omitted, any other value is emitted between capitalised tags. -/
def renderEntry (kv : List Char × Option (List Char)) : List Char :=
  match kv.2 with
  | none => []
  | some value =>
    let key := capitalizeKey kv.1
    ('\t' :: '<' :: key) ++ ('>' :: escape value) ++ ('<' :: '/' :: key) ++ ['>', '\n']

/-- `errno.EXDEV` on Linux. -/
def EXDEV : ℕ := 18

/-- Outcome of the `temp_file.replace(dest_file)` call in `create_cbz`:
either the rename succeeds, or it raises `OSError` with some errno. -/
inductive ReplaceOutcome where
  | ok : ReplaceOutcome
  | err (errno : ℕ) : ReplaceOutcome
deriving DecidableEq, Repr

/-- Observable filesystem steps performed by `create_cbz`.  Paths are lists
of path components. -/
inductive CbzEv where
  | writeComicInfo (path : List (List Char)) : CbzEv
  | writeZip (path : List (List Char)) (entries : List (List Char)) : CbzEv
  | rename (src dst : List (List Char)) : CbzEv
  | copyDelete (src dst : List (List Char)) : CbzEv
deriving DecidableEq, Repr

/-- The temporary archive path used by `create_cbz`:
`temp_file = Path(src_dir, "temp.cbz")` - it lives in the staging source
directory. -/
def tempFileOf (src_dir : List (List Char)) : List (List Char) :=
  src_dir ++ [String.toList "temp.cbz"]

/-- Embedding of `cbz.create_cbz` as the trace of filesystem steps it
performs (or the errno it re-raises).  `files` is the list of entry names
`zf.write` adds (whatever `Path(src_dir).iterdir()` listed, including the
just-written ComicInfo.xml); `out` is the outcome of
`temp_file.replace(dest_file)`.  On `EXDEV` the code falls back to
`shutil.move` (copy then delete); any other `OSError` is re-raised. -/
def create_cbz (src_dir dest_file : List (List Char)) (files : List (List Char))
    (out : ReplaceOutcome) : Except ℕ (List CbzEv) :=
  let tmp := tempFileOf src_dir
  let written := [CbzEv.writeComicInfo (src_dir ++ [String.toList "ComicInfo.xml"]),
                  CbzEv.writeZip tmp files]
  match out with
  | ReplaceOutcome.ok => Except.ok (written ++ [CbzEv.rename tmp dest_file])
  | ReplaceOutcome.err e =>
    if e = EXDEV then Except.ok (written ++ [CbzEv.copyDelete tmp dest_file])
    else Except.error e

/-! ## The since-cutoff checks (mangadex.py and weebcentral.py)

Timestamps are rationals (POSIX timestamps).  In `MangaDex.download_manga`
the check is `if since_dt >= updated: continue` - the chapter is skipped.
In `WeebCentral.download_manga` the check is
`if since_dt is not None: if since_dt >= chapter.dt: continue`. -/

/-- Skip decision of `MangaDex.download_manga` for the since cutoff:
the chapter is skipped when `since_dt >= updated`. -/
def md_skip_since (since_dt updated : ℚ) : Bool :=
  since_dt ≥ updated

/-- Skip decision of `WeebCentral.download_manga` for the since cutoff:
no skip when no cutoff is configured, otherwise skipped when
`since_dt >= chapter.dt`. -/
def wc_skip_since (since_dt : Option ℚ) (dt : ℚ) : Bool :=
  match since_dt with
  | none => false
  | some s => s ≥ dt

/-! ## Post-commit filesystem steps of the three download_manga loops

Only the modified time of the freshly written archive matters here; `now`
is the wall clock at which `create_cbz` materialises the destination file. -/

/-- Filesystem steps that touch modified times after a chapter commit. -/
inductive UtimeEv where
  | createArchive (now : ℚ) : UtimeEv
  | setFileTime (t : ℚ) : UtimeEv
  | setDirTime : UtimeEv
deriving DecidableEq, Repr

/-- `MangaDex.download_manga` after a successful chapter download:
`create_cbz(...)`, then `os.utime(filepath, (updated, updated))`, then
`os.utime(dest_dir)`. -/
def md_commit_events (now updated : ℚ) : List UtimeEv :=
  [UtimeEv.createArchive now, UtimeEv.setFileTime updated, UtimeEv.setDirTime]

/-- `WeebCentral.download_manga` after a successful chapter download:
`create_cbz(...)`, then `os.utime(filepath, (chapter.dt, chapter.dt))`,
then `os.utime(dest_dir)`. -/
def wc_commit_events (now updated : ℚ) : List UtimeEv :=
  [UtimeEv.createArchive now, UtimeEv.setFileTime updated, UtimeEv.setDirTime]

/-- `MangaPlus.download_manga` after a successful chapter download:
`create_cbz(...)`, then `os.utime(dest_dir)` - the archive file's own
modified time is never touched, so the chapter timestamp goes unused. -/
def mp_commit_events (now _updated : ℚ) : List UtimeEv :=
  [UtimeEv.createArchive now, UtimeEv.setDirTime]

/-- Modified time of the archive file after running a commit event list
(`none` when the file was never created). -/
def fileMtimeAfter (evs : List UtimeEv) : Option ℚ :=
  evs.foldl
    (fun acc e =>
      match e with
      | UtimeEv.createArchive n => some n
      | UtimeEv.setFileTime t => some t
      | UtimeEv.setDirTime => acc)
    none

/-! ## MangaDex.at_home_report - telemetry counter state machine

`MAX_FAILED_REPORTS = 3`.  The function returns early without any attempt
for mangadex.org URLs and while `failed_reports > MAX_FAILED_REPORTS`.
Otherwise it performs the POST; the source then runs
`if r.ok and self.failed_reports > 0: self.failed_reports -= 1
else: self.failed_reports += 1` and a raised `RequestException` also
increments the counter. -/

def MAX_FAILED_REPORTS : ℕ := 3

/-- Outcome of the telemetry POST in `at_home_report`: a response with its
`ok` flag, or a raised `requests.RequestException`. -/
inductive ReportOutcome where
  | response (ok : Bool) : ReportOutcome
  | exception : ReportOutcome
deriving DecidableEq, Repr

/-- Result of one `at_home_report` call: the returned boolean, the new
`failed_reports` counter, and whether the POST was actually attempted. -/
structure ReportResult where
  ret : Bool
  failed_reports : ℕ
  attempted : Bool
deriving DecidableEq, Repr

/-- Embedding of `MangaDex.at_home_report` as a transition on the
`failed_reports` counter.  `is_md_url` is `"mangadex.org" in url`. -/
def at_home_report (is_md_url : Bool) (failed_reports : ℕ)
    (outcome : ReportOutcome) : ReportResult :=
  if is_md_url then
    ⟨true, failed_reports, false⟩
  else if failed_reports > MAX_FAILED_REPORTS then
    ⟨true, failed_reports, false⟩
  else
    match outcome with
    | ReportOutcome.response ok =>
      if ok ∧ failed_reports > 0 then ⟨ok, failed_reports - 1, true⟩
      else ⟨ok, failed_reports + 1, true⟩
    | ReportOutcome.exception => ⟨false, failed_reports + 1, true⟩

/-! ## MangaDex.at_home_download_page

The page request either raises before a response exists (`requests.get`
itself fails: no file is ever created), or streams a body:
`open(...)` creates the destination file, each chunk is appended, and a
mid-stream `RequestException` (`truncated = true`) propagates to the
`except` clause, which reports and returns `False` without deleting
anything.  The HTTP status (`ok`) is carried on the response but the source
never consults it - there is no `raise_for_status`. -/

/-- A streamed response: status flag, the body chunks `iter_content`
yields, and whether the stream raises after yielding them. -/
structure PageResponse where
  ok : Bool
  chunks : List (List ℕ)
  truncated : Bool
deriving DecidableEq, Repr

/-- The chunk-write loop: each chunk is appended to the open file. -/
def writeChunks (chunks : List (List ℕ)) (fd : List ℕ) : List ℕ :=
  chunks.foldl (fun acc c => acc ++ c) fd

/-- Embedding of `MangaDex.at_home_download_page`: the returned success flag
and the final state of the destination file (`none` = never created). -/
def at_home_download_page (resp : Option PageResponse) : Bool × Option (List ℕ) :=
  match resp with
  | none => (false, none)
  | some r =>
    let file := writeChunks r.chunks []
    if r.truncated then (false, some file) else (true, some file)

/-! ## MangaPlus.decrypt

`key = bytearray.fromhex(encryption_key)` followed by
`bytes(byte ^ k for byte, k in zip(image_bytes, itertools.cycle(key)))`
(the `xor_cipher.cyclic_xor` fast path computes the same function). -/

/-- Value of a single hex digit, or `none` for a non-hex character. -/
def hexVal (c : Char) : Option ℕ :=
  if '0' ≤ c ∧ c ≤ '9' then some (c.toNat - 48)
  else if 'a' ≤ c ∧ c ≤ 'f' then some (c.toNat - 87)
  else if 'A' ≤ c ∧ c ≤ 'F' then some (c.toNat - 55)
  else none

/-- Embedding of `bytearray.fromhex` on a spaceless hex string: pairs of hex
digits become bytes; an odd length or a non-hex character raises
(`none`). -/
def fromhex : List Char → Option (List ℕ)
  | [] => some []
  | [_] => none
  | a :: b :: rest =>
    match hexVal a, hexVal b, fromhex rest with
    | some x, some y, some r => some ((16 * x + y) :: r)
    | _, _, _ => none

/-- `zip(image_bytes, itertools.cycle(key))` xor loop: with an empty key the
cycle yields nothing and the zip is empty; otherwise byte `i` is xored with
`key[i % len(key)]`. -/
def cyclic_xor (image_bytes key : List ℕ) : List ℕ :=
  if key.isEmpty then []
  else (List.range image_bytes.length).map
    (fun i => image_bytes.getD i 0 ^^^ key.getD (i % key.length) 0)

/-- Embedding of `MangaPlus.decrypt`; `none` models the `ValueError` that
`bytearray.fromhex` raises on a malformed key. -/
def decrypt (encryption_key : List Char) (image_bytes : List ℕ) : Option (List ℕ) :=
  (fromhex encryption_key).map (fun key => cyclic_xor image_bytes key)

/-! ## MangaDex.download_manga - missing chapter number inference

A chapter's `attributes.chapter` field is a JSON string or null.  We model
it as `Option (Option ℚ)`: `none` is null; `some none` is a string that
`float()` rejects; `some (some q)` is a string parsing to the number `q`.
For a null number the code scans backwards (`range(index - 1, -1, -1)`)
for the nearest non-null neighbour, recording `distance = index - i`,
then forwards (`range(index + 1, len(chapters))`, where `distance`
comes out negative); a numeric neighbour yields
`neighbour + min(0.9, max(0.1, 0.1 * distance))`, a non-numeric neighbour
is used as-is (the `ValueError` branch), and no neighbour at all means the
chapter is skipped with a warning (`none`). -/

/-- Backward scan of `download_manga`: first non-null entry at positions
`index - 1, ..., 0`, paired with `index - i`. -/
def findPrevNum (chapters : List (Option (Option ℚ))) (index : ℕ) :
    Option (Option ℚ × ℤ) :=
  (List.range index).reverse.findSome?
    (fun i => (chapters.getD i none).map (fun v => (v, (index : ℤ) - i)))

/-- Forward scan of `download_manga`: first non-null entry at positions
`index + 1, ..., len - 1`, paired with the (negative) `index - i`. -/
def findNextNum (chapters : List (Option (Option ℚ))) (index : ℕ) :
    Option (Option ℚ × ℤ) :=
  ((List.range chapters.length).drop (index + 1)).findSome?
    (fun i => (chapters.getD i none).map (fun v => (v, (index : ℤ) - i)))

/-- The distance offset: `min(0.9, max(0.1, 0.1 * distance))`. -/
def guessOffset (distance : ℤ) : ℚ :=
  min (9 / 10) (max (1 / 10) ((distance : ℚ) / 10))

/-- Number inference for the chapter at `index` (null-numbered case of
`download_manga`): result `none` means guessing failed and the chapter is
skipped; `some none` means a non-numeric neighbour string was used as-is;
`some (some q)` is the synthesized number. -/
def guessChapterNumber (chapters : List (Option (Option ℚ))) (index : ℕ) :
    Option (Option ℚ) :=
  match findPrevNum chapters index <|> findNextNum chapters index with
  | none => none
  | some (v, d) =>
    match v with
    | some q => some (some (q + guessOffset d))
    | none => some none

/-- The chapter number `download_manga` ends up using for the chapter at
`index`: the chapter's own number when present, else the inferred one. -/
def resolvedChapterNumber (chapters : List (Option (Option ℚ))) (index : ℕ) :
    Option (Option ℚ) :=
  match chapters.getD index none with
  | some v => some v
  | none => guessChapterNumber chapters index

/-! ## MangaDex.download_chapter - the retry loop

`for _attempts in range(3)` fetches the pending page set, collects the
failure set, and on a non-empty failure set re-resolves a fresh
`baseUrl` and replaces the pending set with exactly the failed pages;
falling out of the loop (`else`) raises `RetryException`.  The fetch
outcomes are supplied by the oracle `fetchOk attempt page` (a page whose
future raised any exception also counts as failed), and `resolveBase n`
is the `baseUrl` obtained by the `n`-th `at_home_chapter` call
(`n = 0` is the initial resolve before the loop). -/

/-- What one loop iteration of `download_chapter` saw: the attempt index,
the base URL in use, the pending page set, and the failure set it
collected. -/
structure Attempt where
  idx : ℕ
  base : ℕ
  pages : List ℕ
  failed : List ℕ
deriving DecidableEq, Repr

/-- Placeholder attempt used as the default of `List.getD` when indexing
traces. -/
def dummyAttempt : Attempt := ⟨0, 0, [], []⟩

/-- Final outcome of `download_chapter`: the staging directory is yielded
(success) or `RetryException` is raised. -/
inductive ChapterOutcome where
  | success : ChapterOutcome
  | retryExhausted : ChapterOutcome
deriving DecidableEq, Repr

/-- The `for _attempts in range(3) ... else raise` loop of
`download_chapter`, returning the trace of iterations together with the
outcome.  `remaining` counts loop iterations still allowed, `n` is the
current attempt index, `base` the current base URL and `pages` the pending
page set. -/
def chapterLoop (fetchOk : ℕ → ℕ → Bool) (resolveBase : ℕ → ℕ) :
    ℕ → ℕ → ℕ → List ℕ → List Attempt × ChapterOutcome
  | 0, _, _, _ => ([], ChapterOutcome.retryExhausted)
  | remaining + 1, n, base, pages =>
    let failed := pages.filter (fun p => !fetchOk n p)
    if failed.isEmpty then
      ([⟨n, base, pages, failed⟩], ChapterOutcome.success)
    else
      let rest := chapterLoop fetchOk resolveBase remaining (n + 1) (resolveBase (n + 1)) failed
      (⟨n, base, pages, failed⟩ :: rest.1, rest.2)

/-- Embedding of `MangaDex.download_chapter`: initial resolve, then the
retry loop capped at 3 attempts. -/
def download_chapter (fetchOk : ℕ → ℕ → Bool) (resolveBase : ℕ → ℕ)
    (pages : List ℕ) : List Attempt × ChapterOutcome :=
  chapterLoop fetchOk resolveBase 3 0 (resolveBase 0) pages

/-! # Theorems -/

/-! ## C10 - format_chapter_number -/

/-- C10 counterexample: for the input ".5" (dot at index 0) the spec's
integer portion is empty (length 0 ≤ 3), so the claim demands left-padding
with three zeros ("000.5"); the source treats the whole string as the
integer portion and returns "0.5". -/
theorem format_chapter_number_dot_first :
    (specIntegerPortion (String.toList ".5")).length ≤ 3 ∧
    format_chapter_number (String.toList ".5") 3 '0' = String.toList "0.5" ∧
    String.toList "0.5" ≠
      List.replicate (3 - (specIntegerPortion (String.toList ".5")).length) '0'
        ++ String.toList ".5" := by
  decide

/-- C10 amended: `format_chapter_number` left-pads so that the integer
portion AS THE CODE COMPUTES IT (the part before the first dot only when
that dot sits at a positive index; the whole string when there is no dot or
it starts with a dot) reaches `count` characters, returns the input
unchanged when that portion already has at least `count` characters, and
the code's integer portion agrees with the spec's whenever the string does
not start with a dot. -/
theorem format_chapter_number_spec (number : List Char) (count : ℕ) (char : Char) :
    format_chapter_number number count char =
      List.replicate (count - (codeIntegerPortion number).length) char ++ number ∧
    (count ≤ (codeIntegerPortion number).length →
      format_chapter_number number count char = number) ∧
    (∀ i, number.findIdx? (fun c => c = '.') = some i → 0 < i →
      codeIntegerPortion number = specIntegerPortion number) ∧
    (number.findIdx? (fun c => c = '.') = none →
      codeIntegerPortion number = specIntegerPortion number) := by
  refine ⟨rfl, fun h => ?_, fun i hi hpos => ?_, fun h => ?_⟩
  · show List.replicate (count - (codeIntegerPortion number).length) char ++ number = number
    rw [Nat.sub_eq_zero_of_le h, List.replicate_zero, List.nil_append]
  · simp only [codeIntegerPortion, specIntegerPortion, hi, if_pos hpos]
  · simp only [codeIntegerPortion, specIntegerPortion, h]

/-- C10 witness: the amended theorem applied to "25.5", count 3, pad '0'. -/
theorem format_chapter_number_spec_witness :
    format_chapter_number (String.toList "25.5") 3 '0' =
      List.replicate (3 - (codeIntegerPortion (String.toList "25.5")).length) '0'
        ++ String.toList "25.5" ∧
    codeIntegerPortion (String.toList "25.5") = specIntegerPortion (String.toList "25.5") :=
  ⟨(format_chapter_number_spec (String.toList "25.5") 3 '0').1,
   (format_chapter_number_spec (String.toList "25.5") 3 '0').2.2.1 2 (by decide) (by decide)⟩

/-! ## C8 - generate_comic_info -/

/-- C8 counterexample: an entry whose value is the empty string (not
`None`) is emitted as an empty element `<Count></Count>` - the document
differs from the one for the empty manifest, and contains a key with an
empty value. -/
theorem generate_comic_info_empty_value :
    generate_comic_info [(String.toList "Count", some [])] =
      String.toList
        "<?xml version=\"1.0\" encoding=\"UTF-8\"?>\n<ComicInfo>\n\t<Count></Count>\n</ComicInfo>\n" ∧
    generate_comic_info [(String.toList "Count", some [])] ≠ generate_comic_info [] := by
  decide

/-- Helper: the body fold of `generate_comic_info` appends the rendered
entries in list (= insertion) order. -/
theorem gci_foldl_eq (items : List (List Char × Option (List Char))) :
    ∀ s : List Char,
      items.foldl
        (fun s kv =>
          match kv.2 with
          | none => s
          | some value =>
            let key := capitalizeKey kv.1
            s ++ ('\t' :: '<' :: key) ++ ('>' :: escape value) ++ ('<' :: '/' :: key) ++ ['>', '\n'])
        s
      = s ++ (items.map renderEntry).flatten := by
  induction items with
  | nil => intro s; simp
  | cons kv t ih =>
    intro s
    simp only [List.foldl_cons, List.map_cons, List.flatten_cons, ih]
    cases h : kv.2 with
    | none => simp [renderEntry, h]
    | some value => simp [renderEntry, h]

/-- C8 amended: the generated document is the fixed header, the rendered
entries in manifest insertion order, and the fixed footer, where an entry
with value `None` renders to nothing and any other entry - the empty
string included - is emitted between tags whose key has its first letter
capitalized. -/
theorem generate_comic_info_spec (items : List (List Char × Option (List Char))) :
    generate_comic_info items =
      String.toList "<?xml version=\"1.0\" encoding=\"UTF-8\"?>\n<ComicInfo>\n"
        ++ (items.map renderEntry).flatten
        ++ String.toList "</ComicInfo>\n" ∧
    (∀ k, renderEntry (k, none) = []) ∧
    (∀ k v, renderEntry (k, some v) =
      ('\t' :: '<' :: capitalizeKey k) ++ ('>' :: escape v)
        ++ ('<' :: '/' :: capitalizeKey k) ++ ['>', '\n']) ∧
    (∀ c rest, capitalizeKey (c :: rest) = c.toUpper :: rest) := by
  refine ⟨?_, fun k => rfl, fun k v => rfl, fun c rest => rfl⟩
  show String.toList _ ++ _ ++ String.toList _ = _
  rw [gci_foldl_eq items []]
  simp

/-! ## C6 - exclusive since cutoff -/

/-- C6: in both `MangaDex.download_manga` and `WeebCentral.download_manga`
a chapter is skipped exactly when its update timestamp is at or before the
configured cutoff - equality skips, and only strictly newer chapters are
admitted. -/
theorem since_cutoff_exclusive (T t : ℚ) :
    (md_skip_since T t = true ↔ t ≤ T) ∧
    (md_skip_since T t = false ↔ T < t) ∧
    md_skip_since T T = true ∧
    (wc_skip_since (some T) t = true ↔ t ≤ T) ∧
    (wc_skip_since (some T) t = false ↔ T < t) ∧
    wc_skip_since (some T) T = true := by
  refine ⟨?_, ?_, ?_, ?_, ?_, ?_⟩ <;>
    simp [md_skip_since, wc_skip_since, not_le, le_refl]

/-! ## C7 - archive modified time after commit -/

/-- C7 counterexample: after a MangaPlus chapter commit at wall-clock time
5 of a chapter updated at time 3, the archive file's modified time is the
wall-clock 5, not the chapter timestamp 3 - MangaPlus never calls
`os.utime` on the archive file. -/
theorem mp_commit_keeps_wall_clock :
    fileMtimeAfter (mp_commit_events 5 3) = some 5 ∧
    (some (5 : ℚ) : Option ℚ) ≠ some 3 := by
  decide

/-- C7 amended: the MangaDex and WeebCentral commit paths set the new
archive's modified time to the chapter's update timestamp, but the
MangaPlus commit path leaves it at the wall-clock creation time. -/
theorem commit_mtime_spec (now updated : ℚ) :
    fileMtimeAfter (md_commit_events now updated) = some updated ∧
    fileMtimeAfter (wc_commit_events now updated) = some updated ∧
    fileMtimeAfter (mp_commit_events now updated) = some now := by
  refine ⟨rfl, rfl, rfl⟩

/-! ## C5 - create_cbz temporary file and rename fallback -/

/-- C5 counterexample: committing the staging directory `/tmp/stage` to
`/library/ch1.cbz` writes the archive to `/tmp/stage/temp.cbz` - the
temporary file lives in the staging source directory, not in the
destination's directory. -/
theorem create_cbz_temp_not_colocated :
    create_cbz [String.toList "tmp", String.toList "stage"]
        [String.toList "library", String.toList "ch1.cbz"]
        [String.toList "001.png"] ReplaceOutcome.ok =
      Except.ok
        [CbzEv.writeComicInfo
          [String.toList "tmp", String.toList "stage", String.toList "ComicInfo.xml"],
         CbzEv.writeZip
          [String.toList "tmp", String.toList "stage", String.toList "temp.cbz"]
          [String.toList "001.png"],
         CbzEv.rename
          [String.toList "tmp", String.toList "stage", String.toList "temp.cbz"]
          [String.toList "library", String.toList "ch1.cbz"]] ∧
    [String.toList "tmp", String.toList "stage", String.toList "temp.cbz"].dropLast ≠
      [String.toList "library", String.toList "ch1.cbz"].dropLast :=
  ⟨rfl, by decide⟩

/-- C5 amended: `create_cbz` writes the whole archive to `temp.cbz` inside
the staging source directory (not next to the destination), then renames it
onto the destination; a rename failing with `EXDEV` falls back to a
copy-then-delete move, and a rename failing with any other errno
propagates that error. -/
theorem create_cbz_spec (src_dir dest_file : List (List Char))
    (files : List (List Char)) :
    tempFileOf src_dir = src_dir ++ [String.toList "temp.cbz"] ∧
    create_cbz src_dir dest_file files ReplaceOutcome.ok =
      Except.ok
        [CbzEv.writeComicInfo (src_dir ++ [String.toList "ComicInfo.xml"]),
         CbzEv.writeZip (tempFileOf src_dir) files,
         CbzEv.rename (tempFileOf src_dir) dest_file] ∧
    create_cbz src_dir dest_file files (ReplaceOutcome.err EXDEV) =
      Except.ok
        [CbzEv.writeComicInfo (src_dir ++ [String.toList "ComicInfo.xml"]),
         CbzEv.writeZip (tempFileOf src_dir) files,
         CbzEv.copyDelete (tempFileOf src_dir) dest_file] ∧
    (∀ e : ℕ, e ≠ EXDEV →
      create_cbz src_dir dest_file files (ReplaceOutcome.err e) = Except.error e) := by
  refine ⟨rfl, rfl, by simp [create_cbz], fun e he => ?_⟩
  simp [create_cbz, he]

/-- C5 witness: the amended theorem applied to a concrete commit, with the
non-EXDEV errno 13 (EACCES) propagating. -/
theorem create_cbz_spec_witness :
    tempFileOf [String.toList "tmp", String.toList "stage"] =
      [String.toList "tmp", String.toList "stage"] ++ [String.toList "temp.cbz"] ∧
    create_cbz [String.toList "tmp", String.toList "stage"]
        [String.toList "library", String.toList "ch1.cbz"]
        [String.toList "001.png"] (ReplaceOutcome.err 13) = Except.error 13 :=
  ⟨(create_cbz_spec [String.toList "tmp", String.toList "stage"]
      [String.toList "library", String.toList "ch1.cbz"] [String.toList "001.png"]).1,
   (create_cbz_spec [String.toList "tmp", String.toList "stage"]
      [String.toList "library", String.toList "ch1.cbz"] [String.toList "001.png"]).2.2.2
      13 (by decide)⟩

/-! ## C4 - at_home_download_page failure handling -/

/-- C4 counterexample: a stream that yields one chunk `[7]` and then raises
makes `at_home_download_page` return the failure flag, yet the destination
file exists and holds the partial content - nothing is cleaned up. -/
theorem at_home_download_page_partial_file :
    at_home_download_page (some ⟨true, [[7]], true⟩) = (false, some [7]) ∧
    (some [7] : Option (List ℕ)) ≠ none := by
  exact ⟨rfl, by decide⟩

/-- C4 amended: only a failure of the request itself (no response obtained)
returns the failure flag with no file created; a mid-stream failure returns
the failure flag but leaves the partially written file at the destination;
and a non-success status is never detected - the body is written and the
call returns success. -/
theorem at_home_download_page_spec :
    at_home_download_page none = (false, none) ∧
    (∀ r : PageResponse, r.truncated = true →
      at_home_download_page (some r) = (false, some (writeChunks r.chunks []))) ∧
    (∀ r : PageResponse, r.truncated = false →
      at_home_download_page (some r) = (true, some (writeChunks r.chunks []))) := by
  refine ⟨rfl, fun r h => ?_, fun r h => ?_⟩ <;>
    simp [at_home_download_page, h]

/-- C4 witness: the amended theorem at the concrete truncated stream and at
a complete non-success-status stream. -/
theorem at_home_download_page_spec_witness :
    at_home_download_page (some ⟨true, [[7]], true⟩) =
      (false, some (writeChunks [[7]] [])) ∧
    at_home_download_page (some ⟨false, [[9]], false⟩) =
      (true, some (writeChunks [[9]] [])) :=
  ⟨at_home_download_page_spec.2.1 ⟨true, [[7]], true⟩ rfl,
   at_home_download_page_spec.2.2 ⟨false, [[9]], false⟩ rfl⟩

/-! ## C3 - at_home_report failure counter -/

/-- C3: a successful report (`r.ok` true) arriving while `failed_reports`
is 0 takes the `else` branch of
`if r.ok and self.failed_reports > 0: ... else: self.failed_reports += 1`
and INCREMENTS the consecutive-failure counter to 1, although the report
succeeded and the claim (and the surrounding intent - the counter is named
`failed_reports`) says successes never increment it. -/
theorem at_home_report_success_increments :
    at_home_report false 0 (ReportOutcome.response true) =
      ⟨true, 1, true⟩ ∧ (1 : ℕ) ≠ 0 := by
  exact ⟨rfl, by decide⟩

/-! ## C9 - MangaPlus.decrypt involution -/

/-- Helper: the cyclic-xor length is preserved for a non-empty key. -/
theorem cyclic_xor_length (b key : List ℕ) (hne : key ≠ []) :
    (cyclic_xor b key).length = b.length := by
  simp [cyclic_xor, List.isEmpty_iff, hne]

/-- Helper: entry `i` of `cyclic_xor b key`. -/
theorem cyclic_xor_getD (b key : List ℕ) (hne : key ≠ []) (i : ℕ)
    (hi : i < b.length) :
    (cyclic_xor b key).getD i 0 = b.getD i 0 ^^^ key.getD (i % key.length) 0 := by
  have hlen : (cyclic_xor b key).length = b.length := cyclic_xor_length b key hne
  have hi' : i < (cyclic_xor b key).length := by rwa [hlen]
  rw [List.getD_eq_getElem _ _ hi']
  simp only [cyclic_xor, List.isEmpty_iff, if_neg hne]
  rw [List.getElem_map]
  simp [List.getElem_range]

/-- Helper: xoring twice with the same cyclic key is the identity. -/
theorem cyclic_xor_cyclic_xor (b key : List ℕ) (hne : key ≠ []) :
    cyclic_xor (cyclic_xor b key) key = b := by
  have hlen : (cyclic_xor b key).length = b.length := cyclic_xor_length b key hne
  apply List.ext_getElem
  · rw [cyclic_xor_length _ key hne, hlen]
  · intro i h1 h2
    have hib : i < b.length := h2
    have hic : i < (cyclic_xor b key).length := by rwa [hlen]
    have houter : (cyclic_xor (cyclic_xor b key) key).getD i 0 =
        (cyclic_xor b key).getD i 0 ^^^ key.getD (i % key.length) 0 := by
      apply cyclic_xor_getD _ key hne
      rwa [hlen]
    have hinner : (cyclic_xor b key).getD i 0 =
        b.getD i 0 ^^^ key.getD (i % key.length) 0 :=
      cyclic_xor_getD b key hne i hib
    have hval : (cyclic_xor (cyclic_xor b key) key).getD i 0 = b.getD i 0 := by
      rw [houter, hinner, Nat.xor_assoc, Nat.xor_self, Nat.xor_zero]
    rw [List.getD_eq_getElem _ _ h1, List.getD_eq_getElem _ _ hib] at hval
    exact hval

/-- C9: for a key string that parses to a non-empty byte key, `decrypt` is
an involution and preserves the byte length. -/
theorem decrypt_involutive (s : List Char) (key b : List ℕ)
    (hk : fromhex s = some key) (hne : key ≠ []) :
    ∃ b', decrypt s b = some b' ∧ b'.length = b.length ∧
      decrypt s b' = some b := by
  refine ⟨cyclic_xor b key, ?_, cyclic_xor_length b key hne, ?_⟩
  · simp [decrypt, hk]
  · simp [decrypt, hk, cyclic_xor_cyclic_xor b key hne]

/-- C9 witness: the involution theorem at the key "ab" (byte 171) and the
bytes [1, 2, 3]. -/
theorem decrypt_involutive_witness :
    ∃ b', decrypt (String.toList "ab") [1, 2, 3] = some b' ∧
      b'.length = [1, 2, 3].length ∧
      decrypt (String.toList "ab") b' = some [1, 2, 3] :=
  decrypt_involutive (String.toList "ab") [171] [1, 2, 3] (by decide) (by decide)

/-! ## C1 - missing chapter number inference on [null, null, "2", null] -/

/-- Helper: the offset for a forward-found neighbour at distance -2 is
clamped up to 0.1. -/
theorem guessOffset_neg_two : guessOffset (-2) = 1 / 10 := by
  unfold guessOffset
  rw [max_def, min_def]
  norm_num

/-- Helper: the offset for a forward-found neighbour at distance -1 is
clamped up to 0.1. -/
theorem guessOffset_neg_one : guessOffset (-1) = 1 / 10 := by
  unfold guessOffset
  rw [max_def, min_def]
  norm_num

/-- Helper: the offset for a backward-found neighbour at distance 1 is 0.1
(already at the lower clamp). -/
theorem guessOffset_one : guessOffset 1 = 1 / 10 := by
  unfold guessOffset
  rw [max_def, min_def]
  norm_num

/-- Helper: inference result for index 0 of [null, null, "2", null]. -/
theorem resolved_c1_zero :
    resolvedChapterNumber [none, none, some (some 2), none] 0 =
      some (some (21 / 10)) := by
  have hprev : findPrevNum [none, none, some (some (2 : ℚ)), none] 0 = none := rfl
  have hnext : findNextNum [none, none, some (some (2 : ℚ)), none] 0 =
      some (some 2, -2) := rfl
  simp only [resolvedChapterNumber, guessChapterNumber, hprev, hnext,
    Option.none_orElse, List.getD]
  rw [guessOffset_neg_two]
  norm_num

/-- Helper: inference result for index 1 of [null, null, "2", null]. -/
theorem resolved_c1_one :
    resolvedChapterNumber [none, none, some (some 2), none] 1 =
      some (some (21 / 10)) := by
  have hprev : findPrevNum [none, none, some (some (2 : ℚ)), none] 1 = none := rfl
  have hnext : findNextNum [none, none, some (some (2 : ℚ)), none] 1 =
      some (some 2, -1) := rfl
  simp only [resolvedChapterNumber, guessChapterNumber, hprev, hnext,
    Option.none_orElse, List.getD]
  rw [guessOffset_neg_one]
  norm_num

/-- Helper: inference result for index 3 of [null, null, "2", null]. -/
theorem resolved_c1_three :
    resolvedChapterNumber [none, none, some (some 2), none] 3 =
      some (some (21 / 10)) := by
  have hprev : findPrevNum [none, none, some (some (2 : ℚ)), none] 3 =
      some (some 2, 1) := rfl
  simp only [resolvedChapterNumber, guessChapterNumber, hprev,
    Option.some_orElse, List.getD]
  rw [guessOffset_one]
  norm_num

/-- C1 counterexample: for the list `[null, null, "2", null]` the first
chapter's forward scan finds "2" at distance `0 - 2 = -2`, whose offset is
clamped UP to `0.1`, so the chapter is assigned `2.1` - which is not in
the open interval `(1.8, 2.0)`. -/
theorem guess_number_first_chapter :
    resolvedChapterNumber [none, none, some (some 2), none] 0 =
      some (some (21 / 10)) ∧
    ¬ ((9 / 5 : ℚ) < 21 / 10 ∧ (21 / 10 : ℚ) < 2) := by
  refine ⟨resolved_c1_zero, ?_⟩
  norm_num

/-- C1 amended: the inference assigns ALL THREE numberless chapters of
`[null, null, "2", null]` the same number `2.1`: the first two receive
`2.1` each (equal, strictly above "2", so neither inside `(1.8, 2.0)` nor
strictly increasing toward it), and the fourth also receives `2.1`, which
does lie in `(2.0, 2.9)`. -/
theorem guess_number_all_two_point_one :
    resolvedChapterNumber [none, none, some (some 2), none] 0 =
      some (some (21 / 10)) ∧
    resolvedChapterNumber [none, none, some (some 2), none] 1 =
      some (some (21 / 10)) ∧
    resolvedChapterNumber [none, none, some (some 2), none] 3 =
      some (some (21 / 10)) ∧
    (2 : ℚ) < 21 / 10 ∧ (21 / 10 : ℚ) < 29 / 10 := by
  refine ⟨resolved_c1_zero, resolved_c1_one, resolved_c1_three, ?_, ?_⟩ <;> norm_num

/-! ## C2 - download_chapter retry loop -/

/-- Helper: loop step when the failure set of the current attempt is
empty - the loop breaks with success after recording the attempt. -/
theorem chapterLoop_succ_done (f : ℕ → ℕ → Bool) (res : ℕ → ℕ)
    (k n b : ℕ) (ps : List ℕ)
    (hf : (ps.filter (fun p => !f n p)).isEmpty = true) :
    chapterLoop f res (k + 1) n b ps =
      ([⟨n, b, ps, ps.filter (fun p => !f n p)⟩], ChapterOutcome.success) := by
  simp [chapterLoop, hf]

/-- Helper: loop step when the failure set of the current attempt is
non-empty - the attempt is recorded and the loop continues on the failed
pages with a freshly resolved base URL. -/
theorem chapterLoop_succ_retry (f : ℕ → ℕ → Bool) (res : ℕ → ℕ)
    (k n b : ℕ) (ps : List ℕ)
    (hf : (ps.filter (fun p => !f n p)).isEmpty = false) :
    chapterLoop f res (k + 1) n b ps =
      (⟨n, b, ps, ps.filter (fun p => !f n p)⟩ ::
          (chapterLoop f res k (n + 1) (res (n + 1))
            (ps.filter (fun p => !f n p))).1,
        (chapterLoop f res k (n + 1) (res (n + 1))
          (ps.filter (fun p => !f n p))).2) := by
  simp [chapterLoop, hf]

/-- Helper: the retry loop records one iteration per attempt, never more
than the allowed `fuel`. -/
theorem chapterLoop_length_le (f : ℕ → ℕ → Bool) (res : ℕ → ℕ) :
    ∀ fuel n b ps, (chapterLoop f res fuel n b ps).1.length ≤ fuel := by
  intro fuel
  induction fuel with
  | zero => intro n b ps; simp [chapterLoop]
  | succ k ih =>
    intro n b ps
    cases hf : (ps.filter (fun p => !f n p)).isEmpty with
    | true => rw [chapterLoop_succ_done f res k n b ps hf]; simp
    | false =>
      rw [chapterLoop_succ_retry f res k n b ps hf]
      simpa using Nat.succ_le_succ (ih _ _ _)

/-- Helper: the loop records at least one iteration when fuel remains. -/
theorem chapterLoop_length_pos (f : ℕ → ℕ → Bool) (res : ℕ → ℕ)
    (fuel n b : ℕ) (ps : List ℕ) (hfuel : fuel ≠ 0) :
    0 < (chapterLoop f res fuel n b ps).1.length := by
  cases fuel with
  | zero => exact absurd rfl hfuel
  | succ k =>
    cases hf : (ps.filter (fun p => !f n p)).isEmpty with
    | true => rw [chapterLoop_succ_done f res k n b ps hf]; simp
    | false => rw [chapterLoop_succ_retry f res k n b ps hf]; simp

/-- Helper: the `i`-th recorded iteration carries attempt index `n + i`. -/
theorem chapterLoop_getD_idx (f : ℕ → ℕ → Bool) (res : ℕ → ℕ) :
    ∀ fuel n b ps i, i < (chapterLoop f res fuel n b ps).1.length →
      ((chapterLoop f res fuel n b ps).1.getD i dummyAttempt).idx = n + i := by
  intro fuel
  induction fuel with
  | zero => intro n b ps i h; simp [chapterLoop] at h
  | succ k ih =>
    intro n b ps i h
    cases hf : (ps.filter (fun p => !f n p)).isEmpty with
    | true =>
      rw [chapterLoop_succ_done f res k n b ps hf] at h ⊢
      have hi : i = 0 := by simpa using h
      subst hi
      rfl
    | false =>
      rw [chapterLoop_succ_retry f res k n b ps hf] at h ⊢
      cases i with
      | zero => rfl
      | succ j =>
        have hj : j < (chapterLoop f res k (n + 1)
            (res (n + 1)) (ps.filter (fun p => !f n p))).1.length := by
          simpa using h
        have hrec := ih (n + 1) (res (n + 1)) (ps.filter (fun p => !f n p)) j hj
        simp only [List.getD_cons_succ]
        rw [hrec]
        omega

/-- Helper: each recorded iteration's failure set is exactly the pages of
that iteration that its fetch attempt failed. -/
theorem chapterLoop_getD_failed (f : ℕ → ℕ → Bool) (res : ℕ → ℕ) :
    ∀ fuel n b ps i, i < (chapterLoop f res fuel n b ps).1.length →
      ((chapterLoop f res fuel n b ps).1.getD i dummyAttempt).failed =
        ((chapterLoop f res fuel n b ps).1.getD i dummyAttempt).pages.filter
          (fun p => !f (n + i) p) := by
  intro fuel
  induction fuel with
  | zero => intro n b ps i h; simp [chapterLoop] at h
  | succ k ih =>
    intro n b ps i h
    cases hf : (ps.filter (fun p => !f n p)).isEmpty with
    | true =>
      rw [chapterLoop_succ_done f res k n b ps hf] at h ⊢
      have hi : i = 0 := by simpa using h
      subst hi
      rfl
    | false =>
      rw [chapterLoop_succ_retry f res k n b ps hf] at h ⊢
      cases i with
      | zero => rfl
      | succ j =>
        have hj : j < (chapterLoop f res k (n + 1)
            (res (n + 1)) (ps.filter (fun p => !f n p))).1.length := by
          simpa using h
        have hrec := ih (n + 1) (res (n + 1)) (ps.filter (fun p => !f n p)) j hj
        simp only [List.getD_cons_succ]
        rw [hrec]
        have : n + 1 + j = n + (j + 1) := by omega
        rw [this]

/-- Helper: the first recorded iteration uses the initial base URL and the
initial page set. -/
theorem chapterLoop_getD_head (f : ℕ → ℕ → Bool) (res : ℕ → ℕ)
    (fuel n b : ℕ) (ps : List ℕ) (hfuel : fuel ≠ 0) :
    ((chapterLoop f res fuel n b ps).1.getD 0 dummyAttempt).base = b ∧
    ((chapterLoop f res fuel n b ps).1.getD 0 dummyAttempt).pages = ps := by
  cases fuel with
  | zero => exact absurd rfl hfuel
  | succ k =>
    cases hf : (ps.filter (fun p => !f n p)).isEmpty with
    | true => rw [chapterLoop_succ_done f res k n b ps hf]; exact ⟨rfl, rfl⟩
    | false => rw [chapterLoop_succ_retry f res k n b ps hf]; exact ⟨rfl, rfl⟩

/-- Helper: every recorded iteration after the first runs on a freshly
resolved base URL and on exactly the failure set of the previous
iteration, which was non-empty. -/
theorem chapterLoop_getD_step (f : ℕ → ℕ → Bool) (res : ℕ → ℕ) :
    ∀ fuel n b ps i, i + 1 < (chapterLoop f res fuel n b ps).1.length →
      ((chapterLoop f res fuel n b ps).1.getD (i + 1) dummyAttempt).base =
        res (n + i + 1) ∧
      ((chapterLoop f res fuel n b ps).1.getD (i + 1) dummyAttempt).pages =
        ((chapterLoop f res fuel n b ps).1.getD i dummyAttempt).failed ∧
      ((chapterLoop f res fuel n b ps).1.getD i dummyAttempt).failed ≠ [] := by
  intro fuel
  induction fuel with
  | zero => intro n b ps i h; simp [chapterLoop] at h
  | succ k ih =>
    intro n b ps i h
    cases hf : (ps.filter (fun p => !f n p)).isEmpty with
    | true =>
      rw [chapterLoop_succ_done f res k n b ps hf] at h
      simp at h
    | false =>
      rw [chapterLoop_succ_retry f res k n b ps hf] at h ⊢
      have hlen : i < (chapterLoop f res k (n + 1)
          (res (n + 1)) (ps.filter (fun p => !f n p))).1.length := by
        simpa using h
      cases i with
      | zero =>
        have hk : k ≠ 0 := by
          have hle := chapterLoop_length_le f res k (n + 1) (res (n + 1))
            (ps.filter (fun p => !f n p))
          omega
        have hhead := chapterLoop_getD_head f res k (n + 1) (res (n + 1))
          (ps.filter (fun p => !f n p)) hk
        refine ⟨?_, ?_, ?_⟩
        · simp only [List.getD_cons_succ]
          rw [hhead.1]
        · simp only [List.getD_cons_succ, List.getD_cons_zero]
          rw [hhead.2]
        · simp only [List.getD_cons_zero]
          intro hcon
          rw [hcon] at hf
          simp at hf
      | succ j =>
        have hrec := ih (n + 1) (res (n + 1)) (ps.filter (fun p => !f n p)) j
          (by simpa using h)
        simp only [List.getD_cons_succ]
        refine ⟨?_, hrec.2.1, hrec.2.2⟩
        rw [hrec.1]
        have : n + 1 + j + 1 = n + (j + 1) + 1 := by omega
        rw [this]

/-- Helper: the loop raises `RetryException` exactly when it used all its
allowed attempts and the last recorded failure set is still non-empty. -/
theorem chapterLoop_exhausted_iff (f : ℕ → ℕ → Bool) (res : ℕ → ℕ) :
    ∀ fuel n b ps,
      (chapterLoop f res fuel n b ps).2 = ChapterOutcome.retryExhausted ↔
        ((chapterLoop f res fuel n b ps).1.length = fuel ∧
          ((chapterLoop f res fuel n b ps).1.map Attempt.failed).getLast? ≠
            some []) := by
  intro fuel
  induction fuel with
  | zero => intro n b ps; simp [chapterLoop]
  | succ k ih =>
    intro n b ps
    cases hf : (ps.filter (fun p => !f n p)).isEmpty with
    | true =>
      rw [chapterLoop_succ_done f res k n b ps hf]
      have hnil : ps.filter (fun p => !f n p) = [] := by simpa using hf
      simp [hnil]
    | false =>
      rw [chapterLoop_succ_retry f res k n b ps hf]
      have hne : ps.filter (fun p => !f n p) ≠ [] := by simpa using hf
      by_cases hk : k = 0
      · subst hk
        have hrest : chapterLoop f res 0 (n + 1) (res (n + 1))
            (ps.filter (fun p => !f n p)) = ([], ChapterOutcome.retryExhausted) := rfl
        rw [hrest]
        simp [hne]
      · have hpos := chapterLoop_length_pos f res k (n + 1) (res (n + 1))
          (ps.filter (fun p => !f n p)) hk
        obtain ⟨x, xs, hxs⟩ : ∃ x xs, (chapterLoop f res k (n + 1) (res (n + 1))
            (ps.filter (fun p => !f n p))).1 = x :: xs := by
          rcases hrest : (chapterLoop f res k (n + 1) (res (n + 1))
              (ps.filter (fun p => !f n p))).1 with - | ⟨x, xs⟩
          · rw [hrest] at hpos; simp at hpos
          · exact ⟨x, xs, rfl⟩
        have hiff := ih (n + 1) (res (n + 1)) (ps.filter (fun p => !f n p))
        rw [hxs] at hiff
        simp only [List.map_cons, List.getLast?_cons_cons, List.length_cons, hxs]
        rw [hiff]
        have hlenx : (chapterLoop f res k (n + 1) (res (n + 1))
            (ps.filter (fun p => !f n p))).1.length = xs.length + 1 := by
          rw [hxs]; rfl
        constructor
        · rintro ⟨hlen, hlast⟩
          refine ⟨?_, hlast⟩
          simp only [List.length_cons] at hlen ⊢
          omega
        · rintro ⟨hlen, hlast⟩
          refine ⟨?_, hlast⟩
          simp only [List.length_cons] at hlen ⊢
          omega

/-- C2: `download_chapter` performs at most 3 attempts; the first attempt
uses the initially resolved base URL on the full page list; the `i`-th
attempt's failure set is exactly its pages that attempt `i`'s fetches
failed; every following attempt runs on a freshly resolved base URL and on
exactly the previous failure set (which was non-empty); and the call raises
`RetryException` instead of yielding the staging directory precisely when
all 3 attempts ran and the last failure set is still non-empty. -/
theorem download_chapter_retry_spec (f : ℕ → ℕ → Bool) (res : ℕ → ℕ)
    (pages : List ℕ) :
    (download_chapter f res pages).1.length ≤ 3 ∧
    (((download_chapter f res pages).1.getD 0 dummyAttempt).base = res 0 ∧
      ((download_chapter f res pages).1.getD 0 dummyAttempt).pages = pages) ∧
    (∀ i, i < (download_chapter f res pages).1.length →
      ((download_chapter f res pages).1.getD i dummyAttempt).idx = i ∧
      ((download_chapter f res pages).1.getD i dummyAttempt).failed =
        ((download_chapter f res pages).1.getD i dummyAttempt).pages.filter
          (fun p => !f i p)) ∧
    (∀ i, i + 1 < (download_chapter f res pages).1.length →
      ((download_chapter f res pages).1.getD (i + 1) dummyAttempt).base =
        res (i + 1) ∧
      ((download_chapter f res pages).1.getD (i + 1) dummyAttempt).pages =
        ((download_chapter f res pages).1.getD i dummyAttempt).failed ∧
      ((download_chapter f res pages).1.getD i dummyAttempt).failed ≠ []) ∧
    ((download_chapter f res pages).2 = ChapterOutcome.retryExhausted ↔
      ((download_chapter f res pages).1.length = 3 ∧
        ((download_chapter f res pages).1.map Attempt.failed).getLast? ≠
          some [])) := by
  refine ⟨chapterLoop_length_le f res 3 0 (res 0) pages,
    chapterLoop_getD_head f res 3 0 (res 0) pages (by omega),
    fun i hi => ⟨?_, ?_⟩, fun i hi => ?_,
    chapterLoop_exhausted_iff f res 3 0 (res 0) pages⟩
  · have := chapterLoop_getD_idx f res 3 0 (res 0) pages i hi
    simpa using this
  · have := chapterLoop_getD_failed f res 3 0 (res 0) pages i hi
    simpa using this
  · have := chapterLoop_getD_step f res 3 0 (res 0) pages i hi
    simpa using this

/-- C2 witness: the retry theorem applied to a 3-page chapter whose pages
1 and 2 fail on the first attempt and succeed on the second. -/
theorem download_chapter_retry_spec_witness :
    (download_chapter (fun n p => decide (1 ≤ n) || decide (p = 0))
        (fun n => 100 + n) [0, 1, 2]).1.length ≤ 3 ∧
    (((download_chapter (fun n p => decide (1 ≤ n) || decide (p = 0))
        (fun n => 100 + n) [0, 1, 2]).1.getD (0 + 1) dummyAttempt).base = 101 ∧
      ((download_chapter (fun n p => decide (1 ≤ n) || decide (p = 0))
        (fun n => 100 + n) [0, 1, 2]).1.getD (0 + 1) dummyAttempt).pages =
        ((download_chapter (fun n p => decide (1 ≤ n) || decide (p = 0))
          (fun n => 100 + n) [0, 1, 2]).1.getD 0 dummyAttempt).failed ∧
      ((download_chapter (fun n p => decide (1 ≤ n) || decide (p = 0))
        (fun n => 100 + n) [0, 1, 2]).1.getD 0 dummyAttempt).failed ≠ []) :=
  ⟨(download_chapter_retry_spec (fun n p => decide (1 ≤ n) || decide (p = 0))
      (fun n => 100 + n) [0, 1, 2]).1,
   (download_chapter_retry_spec (fun n p => decide (1 ≤ n) || decide (p = 0))
      (fun n => 100 + n) [0, 1, 2]).2.2.2.1 0 (by decide)⟩
